import Mathlib

/-!
Verification development for a teaching repository implementing Todo / Car-Owner
CRUD services over JSON-file and SQLite storage, together with a transactional
session decorator (full_exercise_chalenging/session.py).

The embedding is shallow: the sqlite connection lifecycle performed by the
`session` decorator is modelled as a pure function from an initial committed
store to an outcome, a final committed store, and a trace of lifecycle events
(connection open/close, cursor close, commit, rollback).  Unit-of-work bodies
are modelled as functions from the store snapshot seen at connection-open time
to a result, the pending (uncommitted) view of this connection, the flag
`wrote` (sqlite `cnx.in_transaction`: a DML statement was executed, so an
implicit transaction is open), the committed store after any nested wrapped
calls (`world`, equal to the input for ordinary bodies), and the lifecycle
events emitted by such nested calls.
-/

namespace Spec2Proof

/-- Lifecycle events observable on the sqlite handle during one invocation of
the `session` wrapper (session.py lines 6-21). -/
inductive Event where
  | openConn
  | commit
  | rollback
  | closeCursor
  | closeConn
deriving DecidableEq, Repr

/-- Output of running a unit-of-work body against the store snapshot taken when
the wrapper opened the connection.  `res` is the returned value or the raised
failure; `pending` is this connection's uncommitted view of the store; `wrote`
is sqlite `cnx.in_transaction` after the body ran (true iff the body executed a
write statement); `world` is the committed store after any session-wrapped
calls nested inside the body (equal to the input store when there are none);
`events` are the lifecycle events emitted by such nested calls (empty when
there are none). -/
structure UowOut (ε α σ : Type) where
  res : Except ε α
  world : σ
  pending : σ
  wrote : Bool
  events : List Event
deriving Repr

/-- A unit-of-work body: what `func(cursor, *args, **kwargs)` does, as a
function of the committed store visible when the wrapper opened the
connection. -/
def Uow (ε α σ : Type) : Type := σ → UowOut ε α σ

/-- Observable result of one invocation of a session-wrapped function:
the value returned or exception propagated, the committed store afterwards,
and the full trace of lifecycle events. -/
structure SessionResult (ε α σ : Type) where
  outcome : Except ε α
  finalDb : σ
  events : List Event
deriving Repr

/-- Shallow embedding of the `session` decorator (session.py lines 4-22):
open a connection and cursor on the url, run the body; on normal return commit
iff `cnx.in_transaction`; on a raised failure roll back and re-raise the same
failure; in both cases close the cursor and the connection last. -/
def session (f : Uow ε α σ) (db : σ) : SessionResult ε α σ :=
  match (f db).res with
  | Except.ok a =>
      if (f db).wrote then
        ⟨Except.ok a, (f db).pending,
          Event.openConn :: (f db).events ++ [Event.commit, Event.closeCursor, Event.closeConn]⟩
      else
        ⟨Except.ok a, (f db).world,
          Event.openConn :: (f db).events ++ [Event.closeCursor, Event.closeConn]⟩
  | Except.error e =>
      ⟨Except.error e, (f db).world,
        Event.openConn :: (f db).events ++ [Event.rollback, Event.closeCursor, Event.closeConn]⟩

/-- A plain unit-of-work body: it performs its storage operations only through
the borrowed cursor, with no session-wrapped call nested inside it.  Every
data-access function of the repository is of this shape. -/
def Plain (f : Uow ε α σ) : Prop :=
  ∀ db, (f db).world = db ∧ (f db).events = []

/-- A concrete writing unit of work over a counter store, used to instantiate
hypotheses of the session theorems. -/
def incUow : Uow String Nat Nat := fun db =>
  ⟨Except.ok 7, db, db + 1, true, []⟩

/-- A concrete read-only unit of work over a counter store. -/
def readUow : Uow String Nat Nat := fun db =>
  ⟨Except.ok db, db, db, false, []⟩

/-- A concrete failing unit of work over a counter store. -/
def failUow : Uow String Nat Nat := fun db =>
  ⟨Except.error "boom", db, db + 5, true, []⟩

/-- A unit-of-work body that first invokes the session-wrapped function built
from `g` (opening its own connection on the same url, exactly as a nested call
to a decorated function does in the source), performs no write of its own on
its borrowed cursor, and then raises `e`. -/
def callsInnerThenRaises (g : Uow ε α σ) (e : ε) : Uow ε Unit σ := fun db =>
  ⟨Except.error e, (session g db).finalDb, db, false, (session g db).events⟩

/-- A row of the car_owners table (main_car_owners.py, init_db). -/
structure Owner where
  id : Int
  name : String
  age : Int
  email : String
  created_at : String
deriving DecidableEq, Repr

/-- Body of delete_car_owner_from_db (main_car_owners.py lines 139-142): run
DELETE FROM car_owners WHERE id = ? and return the literal string deleted,
with no existence check. -/
def delete_car_owner_from_db (oid : Int) (db : List Owner) : String × List Owner :=
  ("deleted", db.filter (fun o => o.id != oid))

/-- delete_car_owner_from_db as the unit-of-work body handed to the session
wrapper by the decorator.  The DELETE statement opens an implicit transaction
even when it matches no row, so `wrote` is true. -/
def delete_car_owner_uow (oid : Int) : Uow String String (List Owner) := fun db =>
  ⟨Except.ok (delete_car_owner_from_db oid db).1, db,
    (delete_car_owner_from_db oid db).2, true, []⟩

/-- A row of the todos table / an entry of the todos.json list.  Both storage
variants use the same record shape (id, title, description, completed,
created_at, updated_at); sqlite stores completed as 0/1 and converts back to
bool in row_to_dict. -/
structure Todo where
  id : Int
  title : String
  description : Option String
  completed : Bool
  created_at : String
  updated_at : String
deriving DecidableEq, Repr

/-- Restriction of the update request to requests whose provided title and
completed values are non-null (description may be provided as null).  The
pydantic fields are all nullable and model_dump with exclude_unset retains an
explicit null, so the full request type is TodoUpdateReq below; this
restricted form is used only for the claims whose conclusions do not depend on
provided-null fields (an absent-id update returns not-found before any field
is touched, and an empty store has no record to update). -/
structure TodoUpdate where
  title : Option String
  description : Option (Option String)
  completed : Option Bool
deriving DecidableEq, Repr

/-- The TodoUpdate request after model_dump with exclude_unset, in full
fidelity: every pydantic field is nullable (str|None, str|None, bool|None), so
each field is either not provided at all, or provided with a value that may
itself be an explicit null. -/
structure TodoUpdateReq where
  title : Option (Option String)
  description : Option (Option String)
  completed : Option (Option Bool)
deriving DecidableEq, Repr

/-- A todos.json entry as a raw JSON dict: title and completed may hold null,
because update_todo copies every provided value into the dict unchecked. -/
structure JsonTodo where
  id : Int
  title : Option String
  description : Option String
  completed : Option Bool
  created_at : String
  updated_at : String
deriving DecidableEq, Repr

/-- The JSON dict carried by a well-formed record: a sqlite row rendered by
row_to_dict has exactly this shape (non-null title, bool completed). -/
def Todo.toJson (t : Todo) : JsonTodo :=
  ⟨t.id, some t.title, t.description, some t.completed, t.created_at, t.updated_at⟩

namespace Sqlite

/-- get_todo_by_id (main_sqlite.py lines 101-112): SELECT * FROM todos WHERE
id = ?, fetchone returns the first matching row or None. -/
def get_todo_by_id (tid : Int) (db : List Todo) : Option Todo :=
  db.find? (fun t => t.id == tid)

end Sqlite

namespace Json

/-- State of the todos.json storage file: absent, present but not parseable as
JSON, or holding a well-formed list of todo records. -/
inductive FileState where
  | missing
  | corrupt
  | good (todos : List Todo)
deriving DecidableEq, Repr

/-- read_todos (main_json.py lines 35-43): a missing file returns the empty
list, a JSONDecodeError is caught and returns the empty list, otherwise the
parsed list is returned. -/
def read_todos : FileState → List Todo
  | FileState.missing => []
  | FileState.corrupt => []
  | FileState.good todos => todos

/-- get_next_id (main_json.py lines 50-54): 1 for an empty store, otherwise
the maximum stored id plus one; python max over a nonempty sequence is a left
fold of the binary max. -/
def get_next_id (todos : List Todo) : Int :=
  match todos with
  | [] => 1
  | t :: ts => (ts.foldl (fun m s => max m s.id) t.id) + 1

/-- The TodoItem request body of create_todo: the id is optional. -/
structure TodoItemReq where
  id : Option Int
  title : String
  description : Option String
  completed : Bool
deriving DecidableEq, Repr

/-- create_todo (main_json.py lines 89-111): generate the id when absent,
reject a duplicate id with a 400 error, otherwise stamp created_at and
updated_at and append the record to the store. -/
def create_todo (todo : TodoItemReq) (now : String) (todos : List Todo) :
    Except String (Todo × List Todo) :=
  let tid := todo.id.getD (get_next_id todos)
  if todos.any (fun t => t.id == tid) then
    Except.error "Todo with this ID already exists"
  else
    let item : Todo := ⟨tid, todo.title, todo.description, todo.completed, now, now⟩
    Except.ok (item, todos ++ [item])

/-- Field application of update_todo (main_json.py lines 122-134): copy the
provided fields over the stored record, then stamp updated_at. -/
def jsonApplyUpdate (u : TodoUpdate) (now : String) (t : Todo) : Todo :=
  { t with
    title := u.title.getD t.title,
    description := u.description.getD t.description,
    completed := u.completed.getD t.completed,
    updated_at := now }

/-- update_todo (main_json.py lines 113-137) at the storage level, over the
restricted request type and well-formed records (the full-fidelity version is
update_todo_dicts below): find the first record with the requested id (404 /
none when absent), overwrite the provided fields, stamp updated_at even when
no field was provided, store the list back and return the updated record. -/
def update_todo (tid : Int) (u : TodoUpdate) (now : String) :
    List Todo → Option (Todo × List Todo)
  | [] => none
  | t :: ts =>
      if t.id = tid then
        some (jsonApplyUpdate u now t, jsonApplyUpdate u now t :: ts)
      else
        match update_todo tid u now ts with
        | none => none
        | some (r, ts2) => some (r, t :: ts2)

/-- delete_todo (main_json.py lines 139-150) at the storage level: find the
first record with the requested id (404 / none when absent) and pop it. -/
def delete_todo (tid : Int) : List Todo → Option (List Todo)
  | [] => none
  | t :: ts =>
      if t.id = tid then some ts
      else
        match delete_todo tid ts with
        | none => none
        | some ts2 => some (t :: ts2)

/-- get_all_todos (main_json.py lines 72-78): read the store and optionally
filter by completed status. -/
def get_all_todos (s : FileState) (completed : Option Bool) : List Todo :=
  match completed with
  | none => read_todos s
  | some c => (read_todos s).filter (fun t => t.completed == c)

/-- get_todo (main_json.py lines 80-87): the first stored record with the
requested id, or none (mapped to a 404). -/
def get_todo (s : FileState) (tid : Int) : Option Todo :=
  (read_todos s).find? (fun t => t.id == tid)

/-- The update_todo endpoint as a function of the storage file state. -/
def update_todo_on_file (s : FileState) (tid : Int) (u : TodoUpdate) (now : String) :
    Option (Todo × List Todo) :=
  update_todo tid u now (read_todos s)

/-- The delete_todo endpoint as a function of the storage file state. -/
def delete_todo_on_file (s : FileState) (tid : Int) : Option (List Todo) :=
  delete_todo tid (read_todos s)

/-- Field application of update_todo on a raw dict, in full fidelity: for
key, value in update_data.items(): existing[key] = value — an explicitly
provided null is stored as null — then stamp updated_at. -/
def dictApplyUpdate (u : TodoUpdateReq) (now : String) (t : JsonTodo) : JsonTodo :=
  { t with
    title := u.title.getD t.title,
    description := u.description.getD t.description,
    completed := u.completed.getD t.completed,
    updated_at := now }

/-- update_todo (main_json.py lines 113-137) over raw dicts and the full
request type: find the first record with the requested id (404 / none when
absent), copy every provided field — explicit nulls included — over the
record, stamp updated_at, store the list back and return the record. -/
def update_todo_dicts (tid : Int) (u : TodoUpdateReq) (now : String) :
    List JsonTodo → Option (JsonTodo × List JsonTodo)
  | [] => none
  | t :: ts =>
      if t.id = tid then
        some (dictApplyUpdate u now t, dictApplyUpdate u now t :: ts)
      else
        match update_todo_dicts tid u now ts with
        | none => none
        | some (r, ts2) => some (r, t :: ts2)

end Json

namespace Sqlite

/-- Row effect of the UPDATE statement built by update_todo_in_db from a full
request: a provided title is bound as-is (the provided-null case never reaches
this point, it raises earlier), a provided completed is coerced by the source
expression 1 if value else 0 — so a provided null becomes 0, read back as
False — and a provided description is bound as-is; updated_at is always
set. -/
def sqlApplyUpdateReq (u : TodoUpdateReq) (now : String) (t : Todo) : Todo :=
  { t with
    title := (u.title.getD (some t.title)).getD t.title,
    description := u.description.getD t.description,
    completed := (u.completed.getD (some t.completed)).getD false,
    updated_at := now }

/-- update_todo_in_db (main_sqlite.py lines 143-193) over the full request
type: SELECT first and return ok None when absent; with no provided fields
return the current row unchanged; when the provided title is an explicit null
the UPDATE violates the NOT NULL constraint on title, so cursor.execute raises
sqlite3.IntegrityError before any commit — the error case, with the table
unchanged; otherwise UPDATE the provided fields plus updated_at and return the
row re-read through get_todo_by_id. -/
def update_todo_checked (tid : Int) (u : TodoUpdateReq) (now : String) (db : List Todo) :
    Except Unit (Option (Todo × List Todo)) :=
  match get_todo_by_id tid db with
  | none => Except.ok none
  | some _ =>
      if u.title = none ∧ u.description = none ∧ u.completed = none then
        Except.ok ((get_todo_by_id tid db).map (fun t => (t, db)))
      else if u.title = some none then
        Except.error ()
      else
        Except.ok ((get_todo_by_id tid
            (db.map (fun t => if t.id = tid then sqlApplyUpdateReq u now t else t))).map
          (fun t => (t, db.map (fun t => if t.id = tid then sqlApplyUpdateReq u now t else t))))

end Sqlite

/-- Equality of Except outcomes is decidable componentwise; this makes the
observable-outcome comparisons below computable. -/
instance instDecEqExcept (ε α : Type) [DecidableEq ε] [DecidableEq α] :
    DecidableEq (Except ε α) := fun a b =>
  match a, b with
  | Except.ok x, Except.ok y =>
      if h : x = y then isTrue (by rw [h])
      else isFalse (by intro hc; cases hc; exact h rfl)
  | Except.ok _, Except.error _ => isFalse (by intro hc; cases hc)
  | Except.error _, Except.ok _ => isFalse (by intro hc; cases hc)
  | Except.error d, Except.error e =>
      if h : d = e then isTrue (by rw [h])
      else isFalse (by intro hc; cases hc; exact h rfl)

/-- The observable outcome of the SQLite update rendered as JSON dicts (what
row_to_dict hands to the HTTP layer), for comparison with the JSON variant; a
raised IntegrityError stays an error. -/
def sqliteOutcomeAsJson (r : Except Unit (Option (Todo × List Todo))) :
    Except Unit (Option (JsonTodo × List JsonTodo)) :=
  r.map (fun o => o.map (fun pr => (pr.1.toJson, pr.2.map Todo.toJson)))

/-- An example owner row used to instantiate hypotheses. -/
def ownerA : Owner := ⟨1, "ann", 30, "ann@example.com", "t0"⟩

/-- An example todo row used to instantiate hypotheses. -/
def todoA : Todo := ⟨1, "buy milk", none, false, "t0", "t0"⟩

/-- A TodoUpdate providing only the title. -/
def titleTodoUpdate : TodoUpdate := ⟨some "new title", none, none⟩

/-- A full update request providing no field at all (model_dump with
exclude_unset is empty). -/
def emptyUpdateReq : TodoUpdateReq := ⟨none, none, none⟩

/-- A full update request providing only a non-null title. -/
def titleUpdateReq : TodoUpdateReq := ⟨some (some "new title"), none, none⟩

/-- A full update request providing completed as an explicit null. -/
def nullCompletedReq : TodoUpdateReq := ⟨none, none, some none⟩

/-- A full update request providing title as an explicit null. -/
def nullTitleReq : TodoUpdateReq := ⟨some none, none, none⟩

/-- A create request without an id. -/
def reqNoId : Json.TodoItemReq := ⟨none, "task", none, false⟩

theorem session_ok_write (f : Uow ε α σ) (db : σ) (a : α)
    (hr : (f db).res = Except.ok a) (hw : (f db).wrote = true) :
    session f db = ⟨Except.ok a, (f db).pending,
      Event.openConn :: (f db).events ++ [Event.commit, Event.closeCursor, Event.closeConn]⟩ := by
  unfold session
  rw [hr, hw]
  simp

theorem session_ok_readonly (f : Uow ε α σ) (db : σ) (a : α)
    (hr : (f db).res = Except.ok a) (hw : (f db).wrote = false) :
    session f db = ⟨Except.ok a, (f db).world,
      Event.openConn :: (f db).events ++ [Event.closeCursor, Event.closeConn]⟩ := by
  unfold session
  rw [hr, hw]
  simp

theorem session_err (f : Uow ε α σ) (db : σ) (e : ε)
    (hr : (f db).res = Except.error e) :
    session f db = ⟨Except.error e, (f db).world,
      Event.openConn :: (f db).events ++ [Event.rollback, Event.closeCursor, Event.closeConn]⟩ := by
  unfold session
  rw [hr]

theorem incUow_plain : Plain incUow := fun _ => ⟨rfl, rfl⟩

theorem readUow_plain : Plain readUow := fun _ => ⟨rfl, rfl⟩

theorem failUow_plain : Plain failUow := fun _ => ⟨rfl, rfl⟩

/-- C1: for every unit-of-work body that returns normally, the wrapper commits
iff the connection is inside an implicit write transaction (a read-only body
triggers no commit), and the wrapper returns exactly the body's result. -/
theorem c1_commit_iff_pending_writes (f : Uow ε α σ) (db : σ) (a : α)
    (hp : Plain f) (hr : (f db).res = Except.ok a) :
    (session f db).outcome = Except.ok a ∧
      (Event.commit ∈ (session f db).events ↔ (f db).wrote = true) := by
  have he := (hp db).2
  cases hw : (f db).wrote with
  | true =>
      rw [session_ok_write f db a hr hw, he]
      exact ⟨rfl, by simp⟩
  | false =>
      rw [session_ok_readonly f db a hr hw, he]
      refine ⟨rfl, ?_⟩
      constructor
      · intro hmem
        simp at hmem
      · intro hfalse
        cases hfalse

theorem c1_commit_iff_pending_writes_witness :
    (session incUow 0).outcome = Except.ok 7 ∧
      (Event.commit ∈ (session incUow 0).events ↔ (incUow 0).wrote = true) :=
  c1_commit_iff_pending_writes incUow 0 7 incUow_plain rfl

/-- C2: for every unit-of-work body that raises, the wrapper rolls back (no
effect is committed: the final store equals the prior store) and re-raises the
original failure unchanged, introducing no new error kind. -/
theorem c2_rollback_and_reraise (f : Uow ε α σ) (db : σ) (e : ε)
    (hp : Plain f) (hr : (f db).res = Except.error e) :
    (session f db).outcome = Except.error e ∧
      (session f db).finalDb = db ∧
      Event.rollback ∈ (session f db).events := by
  have hw := (hp db).1
  have he := (hp db).2
  rw [session_err f db e hr, hw, he]
  exact ⟨rfl, rfl, by simp⟩

theorem c2_rollback_and_reraise_witness :
    (session failUow 4).outcome = Except.error "boom" ∧
      (session failUow 4).finalDb = 4 ∧
      Event.rollback ∈ (session failUow 4).events :=
  c2_rollback_and_reraise failUow 4 "boom" failUow_plain rfl

/-- C3: every invocation opens exactly one connection and closes exactly one,
closes the cursor exactly once, the cursor close and connection close are the
final events on every exit path, and over any sequence of invocations the
number of opens equals the number of closes (no leak). -/
theorem c3_one_open_one_close (f : Uow ε α σ) (hp : Plain f) :
    (∀ db, ((session f db).events.count Event.openConn = 1 ∧
        (session f db).events.count Event.closeConn = 1 ∧
        (session f db).events.count Event.closeCursor = 1) ∧
      (∃ mid, (session f db).events =
        Event.openConn :: mid ++ [Event.closeCursor, Event.closeConn])) ∧
    ∀ dbs : List σ,
      (dbs.map fun d => (session f d).events.count Event.openConn).sum =
        (dbs.map fun d => (session f d).events.count Event.closeConn).sum := by
  have key : ∀ db, ((session f db).events.count Event.openConn = 1 ∧
      (session f db).events.count Event.closeConn = 1 ∧
      (session f db).events.count Event.closeCursor = 1) ∧
      (∃ mid, (session f db).events =
        Event.openConn :: mid ++ [Event.closeCursor, Event.closeConn]) := by
    intro db
    have he := (hp db).2
    cases hr : (f db).res with
    | ok a =>
        cases hw : (f db).wrote with
        | true =>
            rw [session_ok_write f db a hr hw, he]
            exact ⟨⟨rfl, rfl, rfl⟩, ⟨[Event.commit], rfl⟩⟩
        | false =>
            rw [session_ok_readonly f db a hr hw, he]
            exact ⟨⟨rfl, rfl, rfl⟩, ⟨[], rfl⟩⟩
    | error e =>
        rw [session_err f db e hr, he]
        exact ⟨⟨rfl, rfl, rfl⟩, ⟨[Event.rollback], rfl⟩⟩
  refine ⟨key, ?_⟩
  intro dbs
  induction dbs with
  | nil => rfl
  | cons d ds ih =>
      simp only [List.map_cons, List.sum_cons, ih, (key d).1.1, (key d).1.2.1]

theorem c3_one_open_one_close_witness :
    (session incUow 2).events.count Event.openConn = 1 ∧
      (session incUow 2).events.count Event.closeConn = 1 := by
  have h := c3_one_open_one_close incUow incUow_plain
  exact ⟨((h.1 2).1).1, ((h.1 2).1).2.1⟩

/-- C4 as stated is false: a read-only unit of work that returns normally
issues neither a commit nor a rollback, so the number of commit-or-rollback
events in that invocation is 0, not 1. -/
theorem c4_counterexample :
    ((session readUow 0).events.count Event.commit +
        (session readUow 0).events.count Event.rollback = 0) ∧
      ¬((session readUow 0).events.count Event.commit +
        (session readUow 0).events.count Event.rollback = 1) := by
  constructor
  · rfl
  · intro h
    simp [session, readUow] at h

/-- C4 amended: every invocation issues at most one commit-or-rollback;
exactly one when the body raises, exactly one when the body returns normally
after executing a write statement, and zero when the body returns normally
without having written. -/
theorem c4_at_most_one_commit_or_rollback (f : Uow ε α σ) (db : σ)
    (hp : Plain f) :
    ((session f db).events.count Event.commit +
        (session f db).events.count Event.rollback ≤ 1) ∧
      (∀ e, (f db).res = Except.error e →
        (session f db).events.count Event.commit +
          (session f db).events.count Event.rollback = 1) ∧
      (∀ a, (f db).res = Except.ok a →
        (session f db).events.count Event.commit +
          (session f db).events.count Event.rollback =
            if (f db).wrote then 1 else 0) := by
  have he := (hp db).2
  have h1 : ∀ e, (f db).res = Except.error e →
      (session f db).events.count Event.commit +
        (session f db).events.count Event.rollback = 1 := by
    intro e hr
    rw [session_err f db e hr, he]
    rfl
  have h2 : ∀ a, (f db).res = Except.ok a →
      (session f db).events.count Event.commit +
        (session f db).events.count Event.rollback =
          if (f db).wrote then 1 else 0 := by
    intro a hr
    cases hw : (f db).wrote with
    | true =>
        rw [session_ok_write f db a hr hw, he]
        rfl
    | false =>
        rw [session_ok_readonly f db a hr hw, he]
        rfl
  refine ⟨?_, h1, h2⟩
  cases hr : (f db).res with
  | ok a =>
      rw [h2 a hr]
      cases (f db).wrote <;> simp
  | error e =>
      rw [h1 e hr]

theorem c4_at_most_one_commit_or_rollback_witness :
    ((session incUow 0).events.count Event.commit +
        (session incUow 0).events.count Event.rollback ≤ 1) ∧
      (∀ e, (incUow 0).res = Except.error e →
        (session incUow 0).events.count Event.commit +
          (session incUow 0).events.count Event.rollback = 1) ∧
      (∀ a, (incUow 0).res = Except.ok a →
        (session incUow 0).events.count Event.commit +
          (session incUow 0).events.count Event.rollback =
            if (incUow 0).wrote then 1 else 0) :=
  c4_at_most_one_commit_or_rollback incUow 0 incUow_plain

/-- C6: invoking the session-wrapped delete_car_owner_from_db on an identifier
absent from the table raises nothing (the outcome is the normal return value
deleted) and leaves the committed store unchanged. -/
theorem c6_wrapped_delete_absent_id (oid : Int) (db : List Owner)
    (habs : ∀ o ∈ db, o.id ≠ oid) :
    (session (delete_car_owner_uow oid) db).outcome = Except.ok "deleted" ∧
      (session (delete_car_owner_uow oid) db).finalDb = db := by
  rw [session_ok_write (delete_car_owner_uow oid) db "deleted" rfl rfl]
  refine ⟨rfl, ?_⟩
  show db.filter (fun o => o.id != oid) = db
  rw [List.filter_eq_self]
  intro o ho
  simpa using habs o ho

theorem c6_wrapped_delete_absent_id_witness :
    (session (delete_car_owner_uow 2) [ownerA]).outcome = Except.ok "deleted" ∧
      (session (delete_car_owner_uow 2) [ownerA]).finalDb = [ownerA] :=
  c6_wrapped_delete_absent_id 2 [ownerA] (by decide)

/-- C7: a session-wrapped call nested inside another wrapped call opens its own
second connection and commits its own transaction independently: the combined
trace opens and closes two connections, contains the inner commit and the
outer rollback (one transaction each), the outer failure still propagates, and
the inner write stays committed even though the outer invocation failed — so
no single atomic transaction spans both calls. -/
theorem c7_nested_sessions_independent (g : Uow ε α σ) (db : σ) (a : α) (e : ε)
    (hp : Plain g) (hr : (g db).res = Except.ok a) (hw : (g db).wrote = true) :
    (session (callsInnerThenRaises g e) db).outcome = Except.error e ∧
      (session (callsInnerThenRaises g e) db).finalDb = (g db).pending ∧
      (session (callsInnerThenRaises g e) db).events.count Event.openConn = 2 ∧
      (session (callsInnerThenRaises g e) db).events.count Event.closeConn = 2 ∧
      (session (callsInnerThenRaises g e) db).events.count Event.commit = 1 ∧
      (session (callsInnerThenRaises g e) db).events.count Event.rollback = 1 := by
  have hg : session g db = ⟨Except.ok a, (g db).pending,
      Event.openConn :: (g db).events ++ [Event.commit, Event.closeCursor, Event.closeConn]⟩ :=
    session_ok_write g db a hr hw
  have hres : (callsInnerThenRaises g e db).res = Except.error e := rfl
  rw [session_err (callsInnerThenRaises g e) db e hres]
  have hworld : (callsInnerThenRaises g e db).world = (g db).pending := by
    show (session g db).finalDb = (g db).pending
    rw [hg]
  have hev : (callsInnerThenRaises g e db).events =
      Event.openConn :: (g db).events ++
        [Event.commit, Event.closeCursor, Event.closeConn] := by
    show (session g db).events = _
    rw [hg]
  rw [hworld, hev, (hp db).2]
  exact ⟨rfl, rfl, rfl, rfl, rfl, rfl⟩

theorem c7_nested_sessions_independent_witness :
    (session (callsInnerThenRaises incUow "boom") 0).outcome = Except.error "boom" ∧
      (session (callsInnerThenRaises incUow "boom") 0).finalDb = (incUow 0).pending ∧
      (session (callsInnerThenRaises incUow "boom") 0).events.count Event.openConn = 2 ∧
      (session (callsInnerThenRaises incUow "boom") 0).events.count Event.closeConn = 2 ∧
      (session (callsInnerThenRaises incUow "boom") 0).events.count Event.commit = 1 ∧
      (session (callsInnerThenRaises incUow "boom") 0).events.count Event.rollback = 1 :=
  c7_nested_sessions_independent incUow 0 7 "boom" incUow_plain rfl rfl

theorem json_update_dicts_cons_eq (tid : Int) (u : TodoUpdateReq) (now : String)
    (t : JsonTodo) (ts : List JsonTodo) :
    Json.update_todo_dicts tid u now (t :: ts) =
      if t.id = tid then
        some (Json.dictApplyUpdate u now t, Json.dictApplyUpdate u now t :: ts)
      else
        match Json.update_todo_dicts tid u now ts with
        | none => none
        | some (r, ts2) => some (r, t :: ts2) := rfl

theorem map_update_absent (f : Todo → Todo) (tid : Int) (ts : List Todo)
    (h : ∀ s ∈ ts, s.id ≠ tid) :
    ts.map (fun s => if s.id = tid then f s else s) = ts := by
  induction ts with
  | nil => rfl
  | cons x xs ih =>
      simp only [List.map_cons]
      rw [if_neg (h x (List.mem_cons_self x xs)),
        ih (fun s hs => h s (List.mem_cons_of_mem x hs))]

theorem applyUpdate_toJson (u : TodoUpdateReq) (now : String) (t : Todo)
    (htitle : u.title ≠ some none) (hcomp : u.completed ≠ some none) :
    Json.dictApplyUpdate u now (Todo.toJson t) =
      Todo.toJson (Sqlite.sqlApplyUpdateReq u now t) := by
  obtain ⟨uT, uD, uC⟩ := u
  cases uT with
  | none =>
      cases uC with
      | none => rfl
      | some c =>
          cases c with
          | none => exact absurd rfl hcomp
          | some b => rfl
  | some s =>
      cases s with
      | none => exact absurd rfl htitle
      | some sv =>
          cases uC with
          | none => rfl
          | some c =>
              cases c with
              | none => exact absurd rfl hcomp
              | some b => rfl

theorem sqlite_checked_head (t : Todo) (ts : List Todo) (tid : Int)
    (u : TodoUpdateReq) (now : String)
    (h : t.id = tid) (hts : ∀ s ∈ ts, s.id ≠ tid)
    (hne : ¬(u.title = none ∧ u.description = none ∧ u.completed = none))
    (htitle : u.title ≠ some none) :
    Sqlite.update_todo_checked tid u now (t :: ts) =
      Except.ok (some (Sqlite.sqlApplyUpdateReq u now t,
        Sqlite.sqlApplyUpdateReq u now t :: ts)) := by
  have hfind : Sqlite.get_todo_by_id tid (t :: ts) = some t := by
    unfold Sqlite.get_todo_by_id
    exact List.find?_cons_of_pos _ (by simp [h])
  have hmap : (t :: ts).map
        (fun s => if s.id = tid then Sqlite.sqlApplyUpdateReq u now s else s) =
      Sqlite.sqlApplyUpdateReq u now t :: ts := by
    simp only [List.map_cons, if_pos h]
    rw [map_update_absent _ tid ts hts]
  have hfind2 : Sqlite.get_todo_by_id tid (Sqlite.sqlApplyUpdateReq u now t :: ts) =
      some (Sqlite.sqlApplyUpdateReq u now t) := by
    unfold Sqlite.get_todo_by_id
    exact List.find?_cons_of_pos _ (by simp [Sqlite.sqlApplyUpdateReq, h])
  unfold Sqlite.update_todo_checked
  rw [hfind]
  simp only [if_neg hne, if_neg htitle, hmap, hfind2]
  rfl

theorem sqlite_checked_cons (t : Todo) (ts : List Todo) (tid : Int)
    (u : TodoUpdateReq) (now : String) (h : t.id ≠ tid) :
    Sqlite.update_todo_checked tid u now (t :: ts) =
      (Sqlite.update_todo_checked tid u now ts).map
        (Option.map (fun pr => (pr.1, t :: pr.2))) := by
  have hfind : Sqlite.get_todo_by_id tid (t :: ts) = Sqlite.get_todo_by_id tid ts := by
    unfold Sqlite.get_todo_by_id
    exact List.find?_cons_of_neg _ (by simpa using h)
  have hmapc : (t :: ts).map
        (fun s => if s.id = tid then Sqlite.sqlApplyUpdateReq u now s else s) =
      t :: ts.map (fun s => if s.id = tid then Sqlite.sqlApplyUpdateReq u now s else s) := by
    simp only [List.map_cons, if_neg h]
  have hfind2 : Sqlite.get_todo_by_id tid
      (t :: ts.map (fun s => if s.id = tid then Sqlite.sqlApplyUpdateReq u now s else s)) =
      Sqlite.get_todo_by_id tid
        (ts.map (fun s => if s.id = tid then Sqlite.sqlApplyUpdateReq u now s else s)) := by
    unfold Sqlite.get_todo_by_id
    exact List.find?_cons_of_neg _ (by simpa using h)
  unfold Sqlite.update_todo_checked
  rw [hfind]
  simp only [hmapc, hfind2]
  cases hA : Sqlite.get_todo_by_id tid ts with
  | none => rfl
  | some r =>
      by_cases hE : u.title = none ∧ u.description = none ∧ u.completed = none
      · simp only [if_pos hE]
        rfl
      · simp only [if_neg hE]
        by_cases hT : u.title = some none
        · simp only [if_pos hT]
          rfl
        · simp only [if_neg hT]
          cases Sqlite.get_todo_by_id tid
              (ts.map (fun s => if s.id = tid then Sqlite.sqlApplyUpdateReq u now s else s)) with
          | none => rfl
          | some r0 => rfl

theorem sqliteOutcomeAsJson_lift (t : Todo)
    (r : Except Unit (Option (Todo × List Todo))) :
    sqliteOutcomeAsJson (r.map (Option.map (fun pr => (pr.1, t :: pr.2)))) =
      (sqliteOutcomeAsJson r).map
        (Option.map (fun pr => (pr.1, Todo.toJson t :: pr.2))) := by
  cases r with
  | error e => rfl
  | ok o =>
      cases o with
      | none => rfl
      | some pr =>
          obtain ⟨a, b⟩ := pr
          rfl

/-- C8 as stated is false, on three kinds of update request.  With no provided
fields the JSON variant refreshes updated_at while the SQLite variant returns
the record untouched.  With completed provided as an explicit null (which
model_dump with exclude_unset retains) the JSON variant stores the null while
the SQLite variant coerces it to 0 via 1 if value else 0, read back as False.
With title provided as an explicit null the JSON variant stores the null while
the SQLite UPDATE violates the NOT NULL constraint on title and raises,
leaving the row unchanged.  In each case the observable outcomes differ. -/
theorem c8_counterexample :
    Except.ok (Json.update_todo_dicts 1 emptyUpdateReq "t1" [Todo.toJson todoA]) ≠
        sqliteOutcomeAsJson (Sqlite.update_todo_checked 1 emptyUpdateReq "t1" [todoA]) ∧
      Except.ok (Json.update_todo_dicts 1 nullCompletedReq "t1" [Todo.toJson todoA]) ≠
        sqliteOutcomeAsJson (Sqlite.update_todo_checked 1 nullCompletedReq "t1" [todoA]) ∧
      Except.ok (Json.update_todo_dicts 1 nullTitleReq "t1" [Todo.toJson todoA]) ≠
        sqliteOutcomeAsJson (Sqlite.update_todo_checked 1 nullTitleReq "t1" [todoA]) := by
  refine ⟨?_, ?_, ?_⟩ <;> decide

/-- C8 amended: over stores with pairwise-distinct identifiers (the only
stores the sqlite primary key admits), the JSON and SQLite update operations
yield the same observable outcome — not-found for an absent identifier, and
the same returned record and resulting stored records, with a sqlite row
rendered as its JSON dict — whenever the update request supplies at least one
field and neither title nor completed is supplied as an explicit null; on an
empty request or an explicit null for title or completed the variants diverge
as the counterexample shows. -/
theorem c8_update_variants_agree (todos : List Todo) (tid : Int)
    (u : TodoUpdateReq) (now : String)
    (hnd : (todos.map Todo.id).Nodup)
    (hne : ¬(u.title = none ∧ u.description = none ∧ u.completed = none))
    (htitle : u.title ≠ some none) (hcomp : u.completed ≠ some none) :
    Except.ok (Json.update_todo_dicts tid u now (todos.map Todo.toJson)) =
      sqliteOutcomeAsJson (Sqlite.update_todo_checked tid u now todos) := by
  induction todos with
  | nil => rfl
  | cons t ts ih =>
      rw [List.map_cons, List.nodup_cons] at hnd
      obtain ⟨hni, hnd2⟩ := hnd
      rw [List.map_cons, json_update_dicts_cons_eq]
      by_cases h : t.id = tid
      · have hts : ∀ s ∈ ts, s.id ≠ tid := by
          intro s hs hc
          have hsid : s.id ∈ ts.map Todo.id := List.mem_map_of_mem Todo.id hs
          rw [hc, ← h] at hsid
          exact hni hsid
        have h2 : (Todo.toJson t).id = tid := h
        rw [if_pos h2, applyUpdate_toJson u now t htitle hcomp,
          sqlite_checked_head t ts tid u now h hts hne htitle]
        rfl
      · have h2 : ¬((Todo.toJson t).id = tid) := h
        rw [if_neg h2, sqlite_checked_cons t ts tid u now h,
          sqliteOutcomeAsJson_lift t (Sqlite.update_todo_checked tid u now ts),
          ← ih hnd2]
        cases Json.update_todo_dicts tid u now (ts.map Todo.toJson) with
        | none => rfl
        | some pr =>
            obtain ⟨r, ts2⟩ := pr
            rfl

theorem c8_update_variants_agree_witness :
    Except.ok (Json.update_todo_dicts 1 titleUpdateReq "t1" ([todoA].map Todo.toJson)) =
      sqliteOutcomeAsJson (Sqlite.update_todo_checked 1 titleUpdateReq "t1" [todoA]) :=
  c8_update_variants_agree [todoA] 1 titleUpdateReq "t1"
    (by decide) (by decide) (by decide) (by decide)

/-- C9: when the storage file is missing or holds malformed JSON, read_todos
returns the empty list instead of raising, and consequently every read, list,
update and delete entry point sees the store as empty: listing returns no
records and the id-addressed operations report not-found. -/
theorem c9_corrupt_store_reads_empty (s : Json.FileState)
    (hs : s = Json.FileState.missing ∨ s = Json.FileState.corrupt) :
    Json.read_todos s = [] ∧
      (∀ c, Json.get_all_todos s c = []) ∧
      (∀ tid, Json.get_todo s tid = none) ∧
      (∀ tid u now, Json.update_todo_on_file s tid u now = none) ∧
      (∀ tid, Json.delete_todo_on_file s tid = none) := by
  have hr : Json.read_todos s = [] := by
    cases hs with
    | inl h =>
        rw [h]
        rfl
    | inr h =>
        rw [h]
        rfl
  refine ⟨hr, ?_, ?_, ?_, ?_⟩
  · intro c
    cases c with
    | none => exact hr
    | some b =>
        show (Json.read_todos s).filter (fun t => t.completed == b) = []
        rw [hr]
        rfl
  · intro tid
    show (Json.read_todos s).find? (fun t => t.id == tid) = none
    rw [hr]
    rfl
  · intro tid u now
    show Json.update_todo tid u now (Json.read_todos s) = none
    rw [hr]
    rfl
  · intro tid
    show Json.delete_todo tid (Json.read_todos s) = none
    rw [hr]
    rfl

theorem c9_corrupt_store_reads_empty_witness :
    Json.read_todos Json.FileState.corrupt = [] ∧
      Json.get_all_todos Json.FileState.corrupt none = [] ∧
      Json.get_todo Json.FileState.corrupt 1 = none ∧
      Json.update_todo_on_file Json.FileState.corrupt 1 titleTodoUpdate "t1" = none ∧
      Json.delete_todo_on_file Json.FileState.corrupt 1 = none := by
  have h := c9_corrupt_store_reads_empty Json.FileState.corrupt (Or.inr rfl)
  exact ⟨h.1, h.2.1 none, h.2.2.1 1, h.2.2.2.1 1 titleTodoUpdate "t1", h.2.2.2.2 1⟩

theorem foldl_max_init_le (xs : List Todo) (a : Int) :
    a ≤ xs.foldl (fun m s => max m s.id) a := by
  induction xs generalizing a with
  | nil => exact le_refl a
  | cons x xs ih => exact le_trans (le_max_left a x.id) (ih (max a x.id))

theorem foldl_max_mem_le (xs : List Todo) (a : Int) (t : Todo) (ht : t ∈ xs) :
    t.id ≤ xs.foldl (fun m s => max m s.id) a := by
  induction xs generalizing a with
  | nil => cases ht
  | cons x xs ih =>
      cases ht with
      | head => exact le_trans (le_max_right a t.id) (foldl_max_init_le xs (max a t.id))
      | tail _ h => exact ih (max a x.id) h

theorem get_next_id_gt (todos : List Todo) (t : Todo) (ht : t ∈ todos) :
    t.id < Json.get_next_id todos := by
  cases todos with
  | nil => cases ht
  | cons x xs =>
      have hle : t.id ≤ xs.foldl (fun m s => max m s.id) x.id := by
        cases ht with
        | head => exact foldl_max_init_le xs t.id
        | tail _ h => exact foldl_max_mem_le xs x.id t h
      have hlt : t.id < xs.foldl (fun m s => max m s.id) x.id + 1 := by omega
      exact hlt

/-- C10: when the create request carries no id, the generated identifier is
strictly greater than every identifier in the store, so the duplicate-id
branch of create_todo is unreachable and the record is appended with the
generated id. -/
theorem c10_generated_id_fresh (todos : List Todo) (req : Json.TodoItemReq)
    (now : String) (hid : req.id = none) :
    (∀ t ∈ todos, t.id < Json.get_next_id todos) ∧
      Json.create_todo req now todos =
        Except.ok
          (⟨Json.get_next_id todos, req.title, req.description, req.completed, now, now⟩,
            todos ++
              [⟨Json.get_next_id todos, req.title, req.description, req.completed, now, now⟩]) := by
  have hgt : ∀ t ∈ todos, t.id < Json.get_next_id todos := fun t ht =>
    get_next_id_gt todos t ht
  refine ⟨hgt, ?_⟩
  have hany : todos.any (fun t => t.id == Json.get_next_id todos) = false := by
    rw [List.any_eq_false]
    intro t ht
    simp only [beq_iff_eq]
    exact Int.ne_of_lt (hgt t ht)
  unfold Json.create_todo
  rw [hid]
  simp only [Option.getD_none]
  rw [hany]
  rfl

theorem c10_generated_id_fresh_witness :
    Json.TodoItemReq.id reqNoId = none ∧
      Json.create_todo reqNoId "t1" [todoA] =
        Except.ok (⟨2, "task", none, false, "t1", "t1"⟩,
          [todoA, ⟨2, "task", none, false, "t1", "t1"⟩]) :=
  ⟨rfl, (c10_generated_id_fresh [todoA] reqNoId "t1" rfl).2⟩

end Spec2Proof
